import Mathlib

/-!
Verification of the plant-growth chart microservice (`src/main.py`).

The service exposes one endpoint `GET /growth-data/{lot_id}` implemented by
`get_growth_chart`.  The external world (the PostgreSQL database reached
through SQLAlchemy, and the failures its driver may raise) is modelled as an
explicit `World` value: the stored table `growth_logs` is a list of rows, and
the three places where the Python code can receive an exception from the
outside (engine creation, `engine.connect()`, `pd.read_sql_query`) are
modelled as optional injected exceptions.  The handler itself is a pure
function of the world and the `lot_id`.
-/

/-- One row of the external table `growth_logs`, as read by the query
(`lot_id`, `log_date`, `height_mm`).  Dates are modelled as naturals (any
totally ordered calendar encoding); heights as rationals, since the column
admits integer or decimal millimetre values. -/
structure Row where
  lot_id : Int
  log_date : Nat
  height_mm : Rat
deriving Repr, DecidableEq

/-- The SQL text of the one query the service submits (lines 27-32 of
`src/main.py`); the lot identifier appears only as the bound placeholder
`:lot_id`. -/
def growthQuerySql : String :=
  "SELECT log_date, height_mm FROM growth_logs WHERE lot_id = :lot_id ORDER BY log_date"

/-- What `pd.read_sql_query(query, connection, params=...)` hands to the
database: the SQL text plus the bound parameters. -/
structure SqlSubmission where
  sqlText : String
  boundParams : List (String × Int)
deriving Repr, DecidableEq

/-- The submission built by line 36 of `src/main.py`: the fixed query text
with `lot_id` passed in the `params` dictionary. -/
def submittedQuery (lot_id : Int) : SqlSubmission :=
  { sqlText := growthQuerySql, boundParams := [("lot_id", lot_id)] }

/-- Semantics of the query `SELECT log_date, height_mm FROM growth_logs
WHERE lot_id = :lot_id ORDER BY log_date` against a stored table: keep the
rows of the requested lot, sorted ascending by `log_date` (`ORDER BY` is
modelled as a stable sort on the date column). -/
def runQuery (db : List Row) (lot : Int) : List Row :=
  List.insertionSort (fun a b => a.log_date ≤ b.log_date)
    (db.filter (fun r => r.lot_id == lot))

/-- Exceptions that flow through the handler's `try`/`except` blocks. -/
inductive Exc where
  | sqlAlchemyError (msg : String)
  | httpException (statusCode : Nat) (detail : String)
  | otherExc (msg : String)
deriving Repr, DecidableEq

/-- Python's `str(e)` for the modelled exceptions; Starlette's
`HTTPException.__str__` renders `"{status_code}: {detail}"`. -/
def excStr : Exc → String
  | .sqlAlchemyError msg => msg
  | .httpException s d => toString s ++ ": " ++ d
  | .otherExc msg => msg

/-- The `except` clauses of `get_growth_chart` (lines 82-85): a
`SQLAlchemyError` becomes a 500 with detail `"Database error: ..."`; any
other exception becomes a 500 carrying `str(e)`. -/
def catchExc : Exc → Exc
  | .sqlAlchemyError msg => .httpException 500 ("Database error: " ++ msg)
  | e => .httpException 500 (excStr e)

/-- The external world a request runs against: the stored table, plus the
exceptions (if any) injected at each interaction with the outside —
`create_engine` inside `get_db_engine`, `engine.connect()`, and the query
execution in `pd.read_sql_query`. -/
structure World where
  db : List Row
  engineFail : Option String
  connectFail : Option Exc
  execFail : Option Exc

/-- `get_db_engine` (lines 14-20 of `src/main.py`): builds the engine from
environment variables; if anything raises, it raises
`HTTPException(500, "Database connection failed: ...")`. -/
def get_db_engine (engineFail : Option String) : Except Exc Unit :=
  match engineFail with
  | none => .ok ()
  | some msg => .error (.httpException 500 ("Database connection failed: " ++ msg))

/-- The `with engine.connect() as connection:` block (lines 35-36): acquires
a connection, runs `pd.read_sql_query`, and releases the connection when the
block exits — also when the body raises.  Returns the result together with
the number of connections acquired and released. -/
def withConnect (connectFail : Option Exc) (execFail : Option Exc)
    (db : List Row) (lot : Int) : Except Exc (List Row) × Nat × Nat :=
  match connectFail with
  | some e => (.error e, 0, 0)
  | none =>
    match execFail with
    | some e => (.error e, 1, 1)
    | none => (.ok (runQuery db lot), 1, 1)

/-- One button of the plotly range selector, as configured by
`fig.update_layout` (lines 58-64). -/
structure RangeButton where
  count : Option Nat
  label : Option String
  step : String
  stepmode : Option String
deriving Repr, DecidableEq

/-- The millimetre-to-centimetre conversion of line 42:
`df['height_cm'] = df['height_mm'] / 10`. -/
def height_cm_of (height_mm : Rat) : Rat :=
  height_mm / 10

/-- The figure produced by `px.line` plus the `update_layout` and
`update_traces` customisations (lines 45-78), keeping exactly the settings
the code passes. -/
structure Figure where
  xs : List Nat
  ys : List Rat
  title : String
  xLabel : String
  yLabel : String
  markers : Bool
  colorSeq : List String
  rangeButtons : List RangeButton
  rangesliderVisible : Bool
  xaxisType : String
  hovermode : String
  hovertemplate : String
deriving Repr, DecidableEq

/-- Build the figure for a lot from the queried rows, as lines 45-78 do. -/
def buildFigure (lot_id : Int) (rows : List Row) : Figure :=
  { xs := rows.map (fun r => r.log_date)
  , ys := rows.map (fun r => height_cm_of r.height_mm)
  , title := "Tomato Growth - Lot " ++ toString lot_id
  , xLabel := "Date"
  , yLabel := "Height (cm)"
  , markers := true
  , colorSeq := ["green"]
  , rangeButtons :=
      [ { count := some 7, label := some "1w", step := "day", stepmode := some "backward" }
      , { count := some 1, label := some "1m", step := "month", stepmode := some "backward" }
      , { count := none, label := none, step := "all", stepmode := none } ]
  , rangesliderVisible := true
  , xaxisType := "date"
  , hovermode := "x unified"
  , hovertemplate :=
      "<b>Date:</b> %\x7bx|%Y-%m-%d\x7d<br><b>Height:</b> %\x7by:.1f\x7d cm<br><extra></extra>" }

/-- Options of the final `fig.to_html(full_html=False, include_plotlyjs='cdn')`. -/
structure HtmlOptions where
  full_html : Bool
  include_plotlyjs : String
deriving Repr, DecidableEq

/-- What the endpoint returns on the non-raising paths: either an explicit
`HTMLResponse(content, status_code)` (the empty-result branch, line 39) or
the chart serialised to an HTML fragment (line 80, status 200). -/
inductive Response where
  | htmlResponse (content : String) (statusCode : Nat)
  | chartHtml (fig : Figure) (opts : HtmlOptions)
deriving Repr, DecidableEq

/-- Outcome of one request: the response or the raised `HTTPException`,
together with the connection bookkeeping of the `with` block. -/
structure HandlerResult where
  response : Except Exc Response
  connAcquired : Nat
  connReleased : Nat

/-- `get_growth_chart` (lines 22-85 of `src/main.py`): acquire the engine,
read the rows inside the scoped connection, return 404 HTML if the frame is
empty, otherwise build and serialise the chart; every exception raised in
the `try` block passes through the `except` clauses (`catchExc`). -/
def get_growth_chart (w : World) (lot_id : Int) : HandlerResult :=
  match get_db_engine w.engineFail with
  | .error e => { response := .error (catchExc e), connAcquired := 0, connReleased := 0 }
  | .ok () =>
    match withConnect w.connectFail w.execFail w.db lot_id with
    | (dfRes, acq, rel) =>
      match dfRes with
      | .error e => { response := .error (catchExc e), connAcquired := acq, connReleased := rel }
      | .ok df =>
        if df.isEmpty then
          { response := .ok (.htmlResponse "<h2>No data found for this lot ID</h2>" 404)
          , connAcquired := acq, connReleased := rel }
        else
          { response := .ok (.chartHtml (buildFigure lot_id df) ⟨false, "cdn"⟩)
          , connAcquired := acq, connReleased := rel }

/-- A world in which every external interaction succeeds. -/
def okWorld (db : List Row) : World :=
  { db := db, engineFail := none, connectFail := none, execFail := none }

lemma toString_500 : toString (500 : Nat) = "500" := rfl

lemma runQuery_pairwise (db : List Row) (lot : Int) :
    List.Pairwise (fun a b => a.log_date ≤ b.log_date) (runQuery db lot) := by
  haveI : IsTotal Row (fun a b => a.log_date ≤ b.log_date) := ⟨fun a b => Nat.le_total _ _⟩
  haveI : IsTrans Row (fun a b => a.log_date ≤ b.log_date) := ⟨fun a b c => Nat.le_trans⟩
  exact List.sorted_insertionSort _ _

lemma runQuery_perm_of_perm (db db' : List Row) (lot : Int) (h : db.Perm db') :
    (runQuery db lot).Perm (runQuery db' lot) := by
  unfold runQuery
  exact ((List.perm_insertionSort (fun a b => a.log_date ≤ b.log_date) _).trans
      (h.filter (fun r => r.lot_id == lot))).trans
    (List.perm_insertionSort (fun a b => a.log_date ≤ b.log_date) _).symm

/-- Claim C1: for every lot with at least one matching row, the handler
returns the chart whose height values are the stored `height_mm` values
divided by 10, paired one-to-one with the queried rows in their stored
(date-ordered) sequence. -/
theorem growth_chart_points_match_rows (db : List Row) (lot : Int)
    (h : runQuery db lot ≠ []) :
    (get_growth_chart (okWorld db) lot).response =
      .ok (.chartHtml (buildFigure lot (runQuery db lot)) ⟨false, "cdn"⟩) ∧
    (buildFigure lot (runQuery db lot)).ys
      = (runQuery db lot).map (fun r => r.height_mm / 10) ∧
    (buildFigure lot (runQuery db lot)).xs
      = (runQuery db lot).map (fun r => r.log_date) ∧
    (buildFigure lot (runQuery db lot)).ys.length = (runQuery db lot).length := by
  refine ⟨?_, rfl, rfl, by simp [buildFigure]⟩
  simp [get_growth_chart, okWorld, withConnect, get_db_engine, h]

/-- Witness for C1: the spec example, lot 7 with rows on days 1 and 8 at
100 mm and 150 mm, yields the chart with heights 10 and 15 in that order. -/
theorem growth_chart_points_match_rows_witness :
    runQuery [⟨7, 1, 100⟩, ⟨7, 8, 150⟩] 7 ≠ [] ∧
    (get_growth_chart (okWorld [⟨7, 1, 100⟩, ⟨7, 8, 150⟩]) 7).response =
      .ok (.chartHtml (buildFigure 7 (runQuery [⟨7, 1, 100⟩, ⟨7, 8, 150⟩] 7)) ⟨false, "cdn"⟩) ∧
    (buildFigure 7 (runQuery [⟨7, 1, 100⟩, ⟨7, 8, 150⟩] 7)).ys = [10, 15] :=
  ⟨by decide,
   (growth_chart_points_match_rows [⟨7, 1, 100⟩, ⟨7, 8, 150⟩] 7 (by decide)).1,
   by
     rw [show runQuery [⟨7, 1, 100⟩, ⟨7, 8, 150⟩] 7 = [⟨7, 1, 100⟩, ⟨7, 8, 150⟩] by decide]
     norm_num [buildFigure, height_cm_of]⟩

/-- Claim C2: a lot with an empty result gets the 404 not-found HTML
response carrying the "no data" message, never a chart. -/
theorem empty_result_not_found (db : List Row) (lot : Int)
    (h : runQuery db lot = []) :
    (get_growth_chart (okWorld db) lot).response =
      .ok (.htmlResponse "<h2>No data found for this lot ID</h2>" 404) ∧
    ∀ fig opts, (get_growth_chart (okWorld db) lot).response ≠ .ok (.chartHtml fig opts) := by
  have hr : (get_growth_chart (okWorld db) lot).response =
      .ok (.htmlResponse "<h2>No data found for this lot ID</h2>" 404) := by
    simp [get_growth_chart, okWorld, withConnect, get_db_engine, h]
  exact ⟨hr, fun fig opts hc => by rw [hr] at hc; cases hc⟩

/-- Witness for C2: an empty database and lot 1. -/
theorem empty_result_not_found_witness :
    runQuery [] 1 = [] ∧
    (get_growth_chart (okWorld []) 1).response =
      .ok (.htmlResponse "<h2>No data found for this lot ID</h2>" 404) :=
  ⟨rfl, (empty_result_not_found [] 1 rfl).1⟩

/-- Claim C3: when establishing the database session fails (an exception
inside `get_db_engine`), the request surfaces a 500 whose detail names a
database-connection failure (the raised `HTTPException` is re-wrapped by the
generic `except Exception` clause, prefixing its `str()` form `"500: "`),
and no ok response — in particular no chart — is returned. -/
theorem engine_failure_surfaces_connection_error (db : List Row)
    (cf xf : Option Exc) (msg : String) (lot : Int) :
    (get_growth_chart ⟨db, some msg, cf, xf⟩ lot).response =
      .error (.httpException 500 ("500: Database connection failed: " ++ msg)) ∧
    ∀ r, (get_growth_chart ⟨db, some msg, cf, xf⟩ lot).response ≠ .ok r := by
  have hr : (get_growth_chart ⟨db, some msg, cf, xf⟩ lot).response =
      .error (.httpException 500 ("500: Database connection failed: " ++ msg)) := rfl
  exact ⟨hr, fun r hc => by rw [hr] at hc; cases hc⟩

/-- Claim C4: a query failure after the connection was established (a
`SQLAlchemyError` raised while executing/fetching) surfaces as a 500 whose
detail names it a database error, and no ok response is returned. -/
theorem query_failure_surfaces_database_error (db : List Row) (msg : String) (lot : Int) :
    (get_growth_chart ⟨db, none, none, some (.sqlAlchemyError msg)⟩ lot).response =
      .error (.httpException 500 ("Database error: " ++ msg)) ∧
    ∀ r, (get_growth_chart ⟨db, none, none, some (.sqlAlchemyError msg)⟩ lot).response ≠ .ok r := by
  have hr : (get_growth_chart ⟨db, none, none, some (.sqlAlchemyError msg)⟩ lot).response =
      .error (.httpException 500 ("Database error: " ++ msg)) := rfl
  exact ⟨hr, fun r hc => by rw [hr] at hc; cases hc⟩

/-- Claim C5: the rendered series is ordered ascending by `log_date` — both
at the row level and on the chart's x values — and permuting the stored
table (a different insertion order) yields the same rows up to permutation,
still sorted. -/
theorem series_sorted_regardless_of_insertion_order (db db' : List Row) (lot : Int)
    (h : db.Perm db') :
    List.Pairwise (fun a b => a ≤ b) ((buildFigure lot (runQuery db lot)).xs) ∧
    List.Pairwise (fun a b => a.log_date ≤ b.log_date) (runQuery db lot) ∧
    (runQuery db lot).Perm (runQuery db' lot) := by
  refine ⟨?_, runQuery_pairwise db lot, runQuery_perm_of_perm db db' lot h⟩
  simpa [buildFigure, List.pairwise_map] using runQuery_pairwise db lot

/-- Witness for C5: two insertion orders of the same two rows of lot 1
(dates 5 and 2); the queried series is sorted either way. -/
theorem series_sorted_regardless_of_insertion_order_witness :
    ([⟨1, 5, 100⟩, ⟨1, 2, 50⟩] : List Row).Perm [⟨1, 2, 50⟩, ⟨1, 5, 100⟩] ∧
    List.Pairwise (fun a b => a.log_date ≤ b.log_date)
      (runQuery [⟨1, 5, 100⟩, ⟨1, 2, 50⟩] 1) ∧
    (runQuery [⟨1, 5, 100⟩, ⟨1, 2, 50⟩] 1).Perm (runQuery [⟨1, 2, 50⟩, ⟨1, 5, 100⟩] 1) :=
  ⟨List.Perm.swap _ _ _,
   (series_sorted_regardless_of_insertion_order [⟨1, 5, 100⟩, ⟨1, 2, 50⟩]
      [⟨1, 2, 50⟩, ⟨1, 5, 100⟩] 1 (List.Perm.swap _ _ _)).2.1,
   (series_sorted_regardless_of_insertion_order [⟨1, 5, 100⟩, ⟨1, 2, 50⟩]
      [⟨1, 2, 50⟩, ⟨1, 5, 100⟩] 1 (List.Perm.swap _ _ _)).2.2⟩

/-- Claim C6: the millimetre-to-centimetre conversion is exact for
representable values: stored 305 mm becomes exactly 30.5 cm, also as the
chart's y value. -/
theorem height_conversion_exact_305 :
    height_cm_of 305 = 30.5 ∧ (buildFigure 1 [⟨1, 0, 305⟩]).ys = [30.5] := by
  constructor
  · norm_num [height_cm_of]
  · norm_num [buildFigure, height_cm_of]

/-- Claim C7: the SQL text submitted to the database is the same fixed
parameterized query for every lot identifier; the lot value travels only in
the bound-parameter list, never in the query string. -/
theorem query_text_fixed_and_parameterized (l1 l2 : Int) :
    (submittedQuery l1).sqlText = growthQuerySql ∧
    (submittedQuery l1).sqlText = (submittedQuery l2).sqlText ∧
    (submittedQuery l1).boundParams = [("lot_id", l1)] :=
  ⟨rfl, rfl, rfl⟩

/-- Claim C8: on every execution — success, empty result, or failure — the
number of connections acquired equals the number released (the `with` block
discipline). -/
theorem connection_released_every_path (w : World) (lot : Int) :
    (get_growth_chart w lot).connAcquired = (get_growth_chart w lot).connReleased := by
  obtain ⟨db, ef, cf, xf⟩ := w
  cases ef <;> cases cf <;> cases xf <;>
    first
      | rfl
      | (simp only [get_growth_chart, get_db_engine, withConnect]
         split <;> rfl)

/-- Claim C9: for every non-empty result the response is the serialised
chart: a line with markers, title naming the lot, axes labeled "Height (cm)"
and "Date", a range selector with 7-day / 1-month / all buttons, a range
slider, unified hover with YYYY-MM-DD date and one-decimal height and an
empty extra tag. -/
theorem chart_layout_and_hover (db : List Row) (lot : Int)
    (h : runQuery db lot ≠ []) :
    (get_growth_chart (okWorld db) lot).response =
      .ok (.chartHtml (buildFigure lot (runQuery db lot)) ⟨false, "cdn"⟩) ∧
    (buildFigure lot (runQuery db lot)).markers = true ∧
    (buildFigure lot (runQuery db lot)).title = "Tomato Growth - Lot " ++ toString lot ∧
    (buildFigure lot (runQuery db lot)).yLabel = "Height (cm)" ∧
    (buildFigure lot (runQuery db lot)).xLabel = "Date" ∧
    (buildFigure lot (runQuery db lot)).rangeButtons =
      [⟨some 7, some "1w", "day", some "backward"⟩,
       ⟨some 1, some "1m", "month", some "backward"⟩,
       ⟨none, none, "all", none⟩] ∧
    (buildFigure lot (runQuery db lot)).rangesliderVisible = true ∧
    (buildFigure lot (runQuery db lot)).hovermode = "x unified" ∧
    (buildFigure lot (runQuery db lot)).hovertemplate =
      "<b>Date:</b> %\x7bx|%Y-%m-%d\x7d<br><b>Height:</b> %\x7by:.1f\x7d cm<br><extra></extra>" := by
  refine ⟨?_, rfl, rfl, rfl, rfl, rfl, rfl, rfl, rfl⟩
  simp [get_growth_chart, okWorld, withConnect, get_db_engine, h]

/-- Witness for C9: a single row of lot 3. -/
theorem chart_layout_and_hover_witness :
    runQuery [⟨3, 1, 305⟩] 3 ≠ [] ∧
    (get_growth_chart (okWorld [⟨3, 1, 305⟩]) 3).response =
      .ok (.chartHtml (buildFigure 3 (runQuery [⟨3, 1, 305⟩] 3)) ⟨false, "cdn"⟩) :=
  ⟨by decide, (chart_layout_and_hover [⟨3, 1, 305⟩] 3 (by decide)).1⟩

/-- Claim C10: the not-found body is the one fixed string
`<h2>No data found for this lot ID</h2>`: every lot identifier with an empty
result receives exactly the same response, so nothing of the request is
interpolated into the body. -/
theorem not_found_body_constant (db1 db2 : List Row) (l1 l2 : Int)
    (h1 : runQuery db1 l1 = []) (h2 : runQuery db2 l2 = []) :
    (get_growth_chart (okWorld db1) l1).response =
      .ok (.htmlResponse "<h2>No data found for this lot ID</h2>" 404) ∧
    (get_growth_chart (okWorld db1) l1).response =
      (get_growth_chart (okWorld db2) l2).response := by
  have e1 : (get_growth_chart (okWorld db1) l1).response =
      .ok (.htmlResponse "<h2>No data found for this lot ID</h2>" 404) := by
    simp [get_growth_chart, okWorld, withConnect, get_db_engine, h1]
  have e2 : (get_growth_chart (okWorld db2) l2).response =
      .ok (.htmlResponse "<h2>No data found for this lot ID</h2>" 404) := by
    simp [get_growth_chart, okWorld, withConnect, get_db_engine, h2]
  exact ⟨e1, e1.trans e2.symm⟩

/-- Witness for C10: lots 1 and 2 over the empty table get the same body. -/
theorem not_found_body_constant_witness :
    runQuery [] 1 = [] ∧ runQuery [] 2 = [] ∧
    (get_growth_chart (okWorld []) 1).response = (get_growth_chart (okWorld []) 2).response :=
  ⟨rfl, rfl, (not_found_body_constant [] [] 1 2 rfl rfl).2⟩
